import Mathlib

/-!
Shallow embedding of the two notebooks of this repository
(`examples/transformations.ipynb` and `examples/van_der_pol_interpolation.ipynb`)
and proofs about the claims of their specification.

The notebooks are linear scripts: they define right-hand-side callbacks for
systems of ODEs, construct system objects through the external `pyodesys`
library, call its `integrate` routine with concrete arguments, post-process
the returned diagnostics dictionary, and plot.  We embed:

* the right-hand-side callbacks `f`, `vdp1` (numeric, over `ℚ`) and `f2`
  (symbolic, over a small expression type mirroring the sympy terms used);
* `numpy.linspace`, used to build output grids;
* every `integrate` invocation the notebooks perform, as a record of the
  arguments supplied at that call site;
* the dictionary `pop` post-processing done by `integrate_and_plot` and
  `solve_and_plot` (modelling the diagnostics mapping by its key list:
  Python dict keys are unique);
* the bodies of the six notebook-defined functions as lists of primitive
  operations, with a straight-line error-propagation semantics;
* the event trace of each notebook run, for the ordering claims.
-/

/-! ### Right-hand-side callbacks (numeric) -/

/-- `transformations.ipynb`, cell 2:
`f = lambda t, x, k: [-k[0]*x[0], k[0]*x[0] - k[1]*x[1], k[1]*x[1] - k[2]*x[2], k[2]*x[2] - k[3]*x[3]]`.
Indexing `x[i]` on a list of length at least 4 is `List.getD i 0`. -/
def f (_t : ℚ) (x k : List ℚ) : List ℚ :=
  [ -(k.getD 0 0) * x.getD 0 0
  , k.getD 0 0 * x.getD 0 0 - k.getD 1 0 * x.getD 1 0
  , k.getD 1 0 * x.getD 1 0 - k.getD 2 0 * x.getD 2 0
  , k.getD 2 0 * x.getD 2 0 - k.getD 3 0 * x.getD 3 0 ]

/-- `van_der_pol_interpolation.ipynb`:
`vdp1 = lambda x, y, p: [y[1], -y[0] + p[0]*y[1]*(1 - y[0]**2)]`
(`x` is the independent variable, `y` the state, `p` the parameters). -/
def vdp1 (_x : ℚ) (y p : List ℚ) : List ℚ :=
  [ y.getD 1 0
  , -(y.getD 0 0) + p.getD 0 0 * y.getD 1 0 * (1 - (y.getD 0 0) ^ 2) ]

/-- Rate constants of the decay chain: `k = [7, 3, 2, 0]` (cell 2). -/
def kDecay : List ℚ := [7, 3, 2, 0]

/-! ### Symbolic expressions and the callback `f2`

`f2` is only ever invoked symbolically (through `LogLogSys.from_callback`),
with sympy symbols for `t`, `x` and `p`; we mirror the sympy terms it builds
with a small expression type. -/

/-- Symbolic expressions as built by `f2`: rational constants, symbols, and
the arithmetic / `exp` nodes appearing in its body. -/
inductive Expr where
  | const : ℚ → Expr
  | sym : String → Expr
  | add : Expr → Expr → Expr
  | sub : Expr → Expr → Expr
  | mul : Expr → Expr → Expr
  | neg : Expr → Expr
  | exp : Expr → Expr
deriving DecidableEq, Repr, Inhabited

instance : Add Expr := ⟨Expr.add⟩
instance : Sub Expr := ⟨Expr.sub⟩
instance : Mul Expr := ⟨Expr.mul⟩
instance : Neg Expr := ⟨Expr.neg⟩
instance : OfNat Expr 0 := ⟨Expr.const 0⟩

/-- `transformations.ipynb`, cell 26:
```
def f2(t, x, p):
    y0 = p[0]*sp.exp(-p[1]*t)
    return [p[1]*y0 - p[2]*x[0]] + [
        p[i+2]*x[i] - p[i+3]*x[i+1] for i in range(len(x) - 1)
    ]
``` -/
def f2 (t : Expr) (x p : List Expr) : List Expr :=
  let y0 := p.getD 0 0 * Expr.exp (-(p.getD 1 0) * t)
  (p.getD 1 0 * y0 - p.getD 2 0 * x.getD 0 0) ::
    (List.range (x.length - 1)).map (fun i =>
      p.getD (i + 2) 0 * x.getD i 0 - p.getD (i + 3) 0 * x.getD (i + 1) 0)

/-! ### Output grids and the `integrate` call sites -/

/-- `numpy.linspace a b n`: `n` evenly spaced points from `a` to `b`
inclusive. -/
def linspace (a b : ℚ) (n : ℕ) : List ℚ :=
  (List.range n).map (fun i : ℕ => a + (b - a) * (i : ℚ) / ((n : ℚ) - 1))

/-- The first positional argument (`xout`) of an `integrate` call:
an explicit sequence of points, a single scalar end point, or a value
computed at run time from an earlier result (the plot grid `xplot` in
`solve_and_plot`). -/
inductive GridArg where
  | pts : List ℚ → GridArg
  | scalar : ℚ → GridArg
  | runtime : GridArg
deriving DecidableEq, Repr

/-- How the integrator is supplied at a call site: by name
(`integrator='cvode'`), or as an integrator object
(`RK4_example_integartor`). -/
inductive IntegratorArg where
  | byName : String → IntegratorArg
  | byObject : String → IntegratorArg
deriving DecidableEq, Repr

/-- The arguments supplied at one `integrate` call site of the notebooks.
`none` means the corresponding argument was not supplied there.
`kwargs` lists the names of the remaining keyword arguments. -/
structure IntegrateCall where
  system : String
  grid : GridArg
  y0 : Option (List ℚ)
  params : Option (List ℚ)
  integrator : Option IntegratorArg
  atol : Option ℚ
  rtol : Option ℚ
  kwargs : List String
deriving DecidableEq, Repr

/-- Initial conditions of the decay chain, cell 2: `y0 = [1, 0, 0, 0]`. -/
def y0Decay : List ℚ := [1, 0, 0, 0]

/-- Augmented initial conditions, cell 18: `y0aug = [1, 1e-20, 1e-20, 1e-20]`. -/
def y0Aug : List ℚ := [1, 1/10^20, 1/10^20, 1/10^20]

/-- The `integrate` call of `transformations.ipynb` cell 6:
`odesys.integrate(np.linspace(0, tend), y0, params=k)` (`tend = 1.0`;
`np.linspace` defaults to 50 points). -/
def callTrans1 : IntegrateCall :=
  { system := "odesys0", grid := .pts (linspace 0 1 50), y0 := some y0Decay
  , params := some kDecay, integrator := none, atol := none, rtol := none
  , kwargs := [] }

/-- The `integrate` call performed by `integrate_and_plot` for the cell-12
invocation: `integrate_and_plot(odesys, 'scipy', np.linspace(0, tend), y0, k,
first_step=1e-14, name='vode', method='bdf')`. -/
def callTrans2 : IntegrateCall :=
  { system := "odesys", grid := .pts (linspace 0 1 50), y0 := some y0Decay
  , params := some kDecay, integrator := some (.byName "scipy")
  , atol := none, rtol := none, kwargs := ["first_step", "name", "method"] }

/-- Cell 16: `integrate_and_plot(odesys, 'cvode', tend, y0, k, atol=1e-8,
rtol=1e-8, method='bdf')` — the grid argument is the scalar `tend`. -/
def callTrans3 : IntegrateCall :=
  { system := "odesys", grid := .scalar 1, y0 := some y0Decay
  , params := some kDecay, integrator := some (.byName "cvode")
  , atol := some (1/10^8), rtol := some (1/10^8), kwargs := ["method"] }

/-- Cell 22: `integrate_and_plot(tsys, 'cvode', [1e-12, tend], y0aug, k,
atol=1e-7, rtol=1e-7, first_step=1e-4)`. -/
def callTrans4 : IntegrateCall :=
  { system := "tsys", grid := .pts [1/10^12, 1], y0 := some y0Aug
  , params := some kDecay, integrator := some (.byName "cvode")
  , atol := some (1/10^7), rtol := some (1/10^7), kwargs := ["first_step"] }

/-- Cell 23: same as cell 22 with the `odeint` integrator and 1e-8
tolerances. -/
def callTrans5 : IntegrateCall :=
  { system := "tsys", grid := .pts [1/10^12, 1], y0 := some y0Aug
  , params := some kDecay, integrator := some (.byName "odeint")
  , atol := some (1/10^8), rtol := some (1/10^8), kwargs := ["first_step"] }

/-- Cell 27: `integrate_and_plot(tsys2, 'cvode', [1e-12, tend], y0aug[1:],
[y0aug[0], 7, 3, 2, 1], atol=1e-7, rtol=1e-7, first_step=1e-4,
stiffness=True)`. -/
def callTrans6 : IntegrateCall :=
  { system := "tsys2", grid := .pts [1/10^12, 1]
  , y0 := some [1/10^20, 1/10^20, 1/10^20]
  , params := some [1, 7, 3, 2, 1], integrator := some (.byName "cvode")
  , atol := some (1/10^7), rtol := some (1/10^7), kwargs := ["first_step"] }

/-- Cell 28: `integrate_and_plot(odesys, 'cvode', [1e-12, tend], y0aug,
[7, 3, 2, 1], atol=1e-7, rtol=1e-7, first_step=1e-4, stiffness=True)`. -/
def callTrans7 : IntegrateCall :=
  { system := "odesys", grid := .pts [1/10^12, 1], y0 := some y0Aug
  , params := some [7, 3, 2, 1], integrator := some (.byName "cvode")
  , atol := some (1/10^7), rtol := some (1/10^7), kwargs := ["first_step"] }

/-- Cell 31: as cell 28 but on `psys`. -/
def callTrans8 : IntegrateCall :=
  { system := "psys", grid := .pts [1/10^12, 1], y0 := some y0Aug
  , params := some [7, 3, 2, 1], integrator := some (.byName "cvode")
  , atol := some (1/10^7), rtol := some (1/10^7), kwargs := ["first_step"] }

/-- Cell 34: `integrate_and_plot(odesys, RK4_example_integartor, [1e-12, tend],
y0aug, k, atol=1e-8, rtol=1e-8, first_step=1e-1)` — the integrator is passed
as an object, not a name. -/
def callTrans9 : IntegrateCall :=
  { system := "odesys", grid := .pts [1/10^12, 1], y0 := some y0Aug
  , params := some kDecay, integrator := some (.byObject "RK4_example_integartor")
  , atol := some (1/10^8), rtol := some (1/10^8), kwargs := ["first_step"] }

/-- Cell 35: as cell 34 but on `tsys`. -/
def callTrans10 : IntegrateCall :=
  { system := "tsys", grid := .pts [1/10^12, 1], y0 := some y0Aug
  , params := some kDecay, integrator := some (.byObject "RK4_example_integartor")
  , atol := some (1/10^8), rtol := some (1/10^8), kwargs := ["first_step"] }

/-- `van_der_pol_interpolation.ipynb`:
`odesys1.integrate(np.linspace(0, tend, 30), y0, [mu], name='vode')`
(`tend = 25`, `mu = 2.5`). -/
def callVdp1 : IntegrateCall :=
  { system := "odesys1", grid := .pts (linspace 0 25 30), y0 := some [0, 1]
  , params := some [5/2], integrator := none, atol := none, rtol := none
  , kwargs := ["name"] }

/-- The main `integrate` call performed inside `solve_and_plot`:
`odesys2.integrate([0, tend], y0, [mu], integrator='cvode', sparse=sparse,
nderiv=nderiv)`. -/
def callVdpMain : IntegrateCall :=
  { system := "odesys2", grid := .pts [0, 25], y0 := some [0, 1]
  , params := some [5/2], integrator := some (.byName "cvode")
  , atol := none, rtol := none, kwargs := ["sparse", "nderiv"] }

/-- The reference `integrate` call performed inside `solve_and_plot` when
interpolating: `odesys2.integrate(xplot, y0, [mu], integrator='cvode',
force_predefined=True, nsteps=5000)` — its grid is the run-time plot grid. -/
def callVdpRef : IntegrateCall :=
  { system := "odesys2", grid := .runtime, y0 := some [0, 1]
  , params := some [5/2], integrator := some (.byName "cvode")
  , atol := none, rtol := none, kwargs := ["force_predefined", "nsteps"] }

/-- Every `integrate` invocation the two notebooks perform, in execution
order.  `solve_and_plot` runs nine times; the five runs that interpolate
(`nderiv=1`, `nderiv=2` twice each, and the final `interpolate=True` run)
also perform the reference call. -/
def allIntegrateCalls : List IntegrateCall :=
  [ callTrans1, callTrans2, callTrans3, callTrans4, callTrans5
  , callTrans6, callTrans7, callTrans8, callTrans9, callTrans10
  , callVdp1
  , callVdpMain                           -- solve_and_plot(sparse=-1)
  , callVdpMain                           -- ... roots=..., lines=0.3
  , callVdpMain, callVdpRef               -- ... nderiv=1
  , callVdpMain, callVdpRef               -- ... nderiv=2
  , callVdpMain                           -- ... roots=exprs+d2fdx2
  , callVdpMain, callVdpRef               -- ... nderiv=1
  , callVdpMain, callVdpRef               -- ... nderiv=2
  , callVdpMain, callVdpRef ]             -- ... interpolate=True

/-! ### The diagnostics mapping and the `pop` post-processing

Python dict keys are unique; the claims only concern which keys the
diagnostics mapping holds, so we model it by its list of keys.  `pop`
without a default raises `KeyError` on a missing key; `pop` with a default
never raises. -/

/-- `d.pop(k)` on the key list of a dict: remove the key, or raise
`KeyError` when absent. -/
def dictPop (d : List String) (k : String) : Except String (List String) :=
  if k ∈ d then .ok (d.filter (· != k)) else .error "KeyError"

/-- `d.pop(k, default)` on the key list of a dict: remove the key when
present; never raises. -/
def dictPopD (d : List String) (k : String) : List String :=
  d.filter (· != k)

/-- The diagnostics post-processing of `integrate_and_plot`
(`transformations.ipynb` cell 10): `info.pop('internal_xout');
info.pop('internal_yout')`, both without a default, before `info` is
returned. -/
def iapInfo (info : List String) : Except String (List String) :=
  match dictPop info "internal_xout" with
  | .error e => .error e
  | .ok i1 =>
    match dictPop i1 "internal_yout" with
    | .error e => .error e
    | .ok i2 => .ok i2

/-- The diagnostics post-processing of `solve_and_plot`
(`van_der_pol_interpolation.ipynb`): `info2.pop('root_indices', None)`
right after integrating, then `info2.pop('internal_xout');
info2.pop('internal_yout')` before `info2` is returned. -/
def sapInfo (info : List String) : Except String (List String) :=
  let i1 := dictPopD info "root_indices"
  match dictPop i1 "internal_xout" with
  | .error e => .error e
  | .ok i2 =>
    match dictPop i2 "internal_yout" with
    | .error e => .error e
    | .ok i3 => .ok i3

/-! ### The bodies of the notebook-defined functions

Each of the six functions defined in the notebooks is transcribed as the
list of primitive operations its body performs: calls into external
libraries, calls to other notebook-defined functions, and arithmetic the
function computes itself.  Conditional branches (`if stiffness`,
`if interpolate`) are included: the claims about the bodies are about which
kinds of operations occur in them.  None of the functions contains a
`try`/`except` handler, recorded by the `hasHandler` flag. -/

/-- A primitive operation of a notebook function body. -/
inductive Op where
  | extCall (lib fn : String)
  | localCall (fn : String)
  | arith (desc : String)
deriving DecidableEq, Repr

/-- A function defined in one of the notebooks: its body as a list of
operations and whether the body contains an error handler. -/
structure PyFunction where
  name : String
  body : List Op
  hasHandler : Bool
deriving DecidableEq, Repr

/-- `f = lambda t, x, k: [-k[0]*x[0], ...]` — pure arithmetic. -/
def fnF : PyFunction :=
  { name := "f", hasHandler := false
  , body :=
    [ .arith "-k[0]*x[0]", .arith "k[0]*x[0] - k[1]*x[1]"
    , .arith "k[1]*x[1] - k[2]*x[2]", .arith "k[2]*x[2] - k[3]*x[3]" ] }

/-- `rmsd` (`transformations.ipynb` cell 4):
`diff = np.array(ref[4-len(x):]) - x; return np.sum(diff**2)**0.5`. -/
def fnRmsd : PyFunction :=
  { name := "rmsd", hasHandler := false
  , body :=
    [ .arith "ref[4-len(x):]", .extCall "numpy" "array"
    , .arith "np.array(...) - x", .arith "diff**2"
    , .extCall "numpy" "sum", .arith "np.sum(...)**0.5" ] }

/-- `integrate_and_plot` (`transformations.ipynb` cell 10). -/
def fnIntegrateAndPlot : PyFunction :=
  { name := "integrate_and_plot", hasHandler := false
  , body :=
    [ .extCall "matplotlib" "figure"
    , .extCall "pyodesys" "integrate"
    , .extCall "matplotlib" "subplot"
    , .extCall "pyodesys" "plot_result"
    , .extCall "matplotlib" "legend"
    , .extCall "matplotlib" "subplot"
    , .extCall "matplotlib" "set_xscale"
    , .extCall "matplotlib" "set_yscale"
    , .extCall "pyodesys" "plot_result"
    , .extCall "matplotlib" "legend"
    , .extCall "pyodesys" "stiffness"      -- if stiffness:
    , .extCall "matplotlib" "subplot"
    , .extCall "matplotlib" "yscale"
    , .extCall "matplotlib" "plot"
    , .extCall "builtin" "dict.pop"        -- info.pop('internal_xout')
    , .extCall "builtin" "dict.pop"        -- info.pop('internal_yout')
    , .arith "len(xout)"
    , .localCall "rmsd" ] }

/-- `f2` (`transformations.ipynb` cell 26). -/
def fnF2 : PyFunction :=
  { name := "f2", hasHandler := false
  , body :=
    [ .extCall "sympy" "exp"
    , .arith "p[0]*sp.exp(-p[1]*t)"
    , .arith "p[1]*y0 - p[2]*x[0]"
    , .arith "p[i+2]*x[i] - p[i+3]*x[i+1] for i in range(len(x) - 1)"
    , .arith "list concatenation" ] }

/-- `vdp1 = lambda x, y, p: [y[1], -y[0] + p[0]*y[1]*(1 - y[0]**2)]`. -/
def fnVdp1 : PyFunction :=
  { name := "vdp1", hasHandler := false
  , body := [ .arith "y[1]", .arith "-y[0] + p[0]*y[1]*(1 - y[0]**2)" ] }

/-- `solve_and_plot` (`van_der_pol_interpolation.ipynb`). -/
def fnSolveAndPlot : PyFunction :=
  { name := "solve_and_plot", hasHandler := false
  , body :=
    [ .extCall "builtin" "zip"
    , .extCall "pyodesys" "SymbolicSys"
    , .extCall "pyodesys" "integrate"
    , .extCall "builtin" "dict.pop"        -- info2.pop('root_indices', None)
    , .arith "nderiv > 0"                  -- default for interpolate
    , .extCall "matplotlib" "figure"
    , .extCall "matplotlib" "subplot"
    , .extCall "pyodesys" "plot_result"
    , .extCall "matplotlib" "ylabel"
    , .extCall "pyodesys" "integrate"      -- if interpolate:
    , .extCall "matplotlib" "plot"
    , .extCall "matplotlib" "subplots_adjust"
    , .extCall "matplotlib" "subplot"
    , .extCall "matplotlib" "ylabel"
    , .arith "yplot - yref"
    , .extCall "matplotlib" "plot"
    , .extCall "matplotlib" "setp"
    , .extCall "matplotlib" "xlabel"
    , .extCall "builtin" "dict.pop"        -- info2.pop('internal_xout')
    , .extCall "builtin" "dict.pop" ] }    -- info2.pop('internal_yout')

/-- All six functions defined across the two notebooks. -/
def notebookFunctions : List PyFunction :=
  [fnF, fnRmsd, fnIntegrateAndPlot, fnF2, fnVdp1, fnSolveAndPlot]

/-- Straight-line execution of a body: each operation may raise (the
`oracle` says what a given operation does); the first error aborts the
rest of the body. -/
def runBody (oracle : Op → Except String Unit) : List Op → Except String Unit
  | [] => .ok ()
  | op :: rest =>
    match oracle op with
    | .error e => .error e
    | .ok () => runBody oracle rest

/-- Execution of a whole notebook function: a body with a handler would
swallow errors; a body without one is straight-line execution. -/
def runFn (oracle : Op → Except String Unit) (fn : PyFunction) :
    Except String Unit :=
  if fn.hasHandler then
    match runBody oracle fn.body with
    | .error _ => .ok ()
    | r => r
  else runBody oracle fn.body

/-- True when an operation is a call into the external symbolic/numeric
ODE package or the plotting library (and nothing else). -/
def isOdeOrPlotCall : Op → Bool
  | .extCall lib _ => lib == "pyodesys" || lib == "matplotlib"
  | _ => false

/-- True when an operation is a call into one of the third-party libraries
the notebooks use (or a Python builtin), a call to another notebook
function, or elementwise arithmetic. -/
def isGlueOp : Op → Bool
  | .extCall lib _ =>
      lib == "pyodesys" || lib == "matplotlib" || lib == "numpy" ||
      lib == "sympy" || lib == "builtin"
  | .localCall fn => fn == "rmsd"
  | .arith _ => true

/-! ### Event traces of the notebook runs

For the ordering claims we record each notebook run as a list of events:
defining a right-hand-side callback, constructing a system object (with the
callback it is built from, when built directly from one), an `integrate`
call on a system (`ref := true` for the high-accuracy reference integration
of `solve_and_plot`), plotting a system's latest result, a dictionary
`pop`, and the pointwise error computation `yplot - yref`. -/

/-- One event in a notebook run. -/
inductive Ev where
  | defRHS (name : String)
  | construct (sys : String) (rhs : Option String)
  | integrate (sys : String) (ref : Bool)
  | plot (sys : String) (ref : Bool)
  | pop (key : String) (hasDefault : Bool)
  | errDiff
deriving DecidableEq, Repr, Inhabited

/-- The resolution of `solve_and_plot`'s `interpolate` argument:
`if interpolate is None: interpolate = nderiv > 0`. -/
def resolveInterpolate (interpolate : Option Bool) (nderiv : ℕ) : Bool :=
  match interpolate with
  | some b => b
  | none => decide (0 < nderiv)

/-- The events of one `solve_and_plot` call
(`van_der_pol_interpolation.ipynb`), in the order of its body: construct
`odesys2`, integrate, `pop('root_indices', None)`, `plot_result`; when the
resolved `interpolate` flag is true also the reference integration, the
plots of `yref`, the error computation `yplot - yref` and its plot; then
the two `pop`s of the internal arrays. -/
def solveAndPlotEvents (interpolate : Option Bool) (nderiv : ℕ) : List Ev :=
  [ .construct "odesys2" none, .integrate "odesys2" false
  , .pop "root_indices" true, .plot "odesys2" false ]
  ++ (if resolveInterpolate interpolate nderiv then
       [ .integrate "odesys2" true, .plot "odesys2" true
       , .errDiff, .plot "odesys2" true ]
      else [])
  ++ [ .pop "internal_xout" false, .pop "internal_yout" false ]

/-- The events of one `integrate_and_plot` call (`transformations.ipynb`
cell 10): integrate, two `plot_result`s (linear and log-log), the
stiffness plot when requested, and the two `pop`s. -/
def integrateAndPlotEvents (sys : String) (stiffness : Bool) : List Ev :=
  [ .integrate sys false, .plot sys false, .plot sys false ]
  ++ (if stiffness then [.plot sys false] else [])
  ++ [ .pop "internal_xout" false, .pop "internal_yout" false ]

/-- The event trace of running `transformations.ipynb` top to bottom.
`odesys0` is the first binding of `odesys` (`OdeSys(f)`, cell 6); `odesys`
is its rebinding to `SymbolicSys.from_callback(f, 4, 4)` (cell 8); `tsys`,
`tsys2` and `psys` are as in the notebook. -/
def transformationsTrace : List Ev :=
  [ .defRHS "f"
  , .construct "odesys0" (some "f"), .integrate "odesys0" false
  , .plot "odesys0" false
  , .pop "internal_xout" false, .pop "internal_yout" false
  , .construct "odesys" (some "f") ]
  ++ integrateAndPlotEvents "odesys" false      -- cell 12
  ++ integrateAndPlotEvents "odesys" false      -- cell 16
  ++ [ .construct "tsys" (some "f") ]           -- cell 20
  ++ integrateAndPlotEvents "tsys" false        -- cell 22
  ++ integrateAndPlotEvents "tsys" false        -- cell 23
  ++ [ .defRHS "f2", .construct "tsys2" (some "f2") ]  -- cell 26
  ++ integrateAndPlotEvents "tsys2" true        -- cell 27
  ++ integrateAndPlotEvents "odesys" true       -- cell 28
  ++ [ .construct "psys" none ]                 -- cell 30, from odesys
  ++ integrateAndPlotEvents "psys" true         -- cell 31
  ++ integrateAndPlotEvents "odesys" false      -- cell 34
  ++ integrateAndPlotEvents "tsys" false        -- cell 35

/-- The event trace of running `van_der_pol_interpolation.ipynb` top to
bottom, with the arguments of the nine `solve_and_plot` calls. -/
def vdpTrace : List Ev :=
  [ .defRHS "vdp1", .construct "odesys1" (some "vdp1")
  , .integrate "odesys1" false, .plot "odesys1" false ]
  ++ solveAndPlotEvents none 0          -- sparse=-1
  ++ solveAndPlotEvents none 0          -- roots=..., lines=0.3
  ++ solveAndPlotEvents none 1          -- nderiv=1
  ++ solveAndPlotEvents none 2          -- nderiv=2
  ++ solveAndPlotEvents none 0          -- roots=exprs+d2fdx2
  ++ solveAndPlotEvents none 1          -- nderiv=1
  ++ solveAndPlotEvents none 2          -- nderiv=2
  ++ solveAndPlotEvents (some true) 0   -- interpolate=True

/-- The three ordering properties of a trace: a construction from a
callback is preceded by that callback's definition; an `integrate` on a
system is preceded by a construction of that system; a plot of a result is
preceded by the integration that produced it. -/
def evOrdered (tr : List Ev) : Bool :=
  (List.range tr.length).all fun i =>
    match tr.getD i .errDiff with
    | .construct _ (some r) =>
        (tr.take i).any fun e => decide (e = .defRHS r)
    | .integrate s _ =>
        (tr.take i).any fun e =>
          match e with
          | .construct s2 _ => s2 == s
          | _ => false
    | .plot s r =>
        (tr.take i).any fun e => decide (e = .integrate s r)
    | _ => true

/-! ### The `from_callback` declarations and the result bundle -/

/-- The dimensionality declarations of the `from_callback` construction
sites: (callback, number of dependent variables, number of parameters).
`SymbolicSys.from_callback(f, 4, 4)` (cell 8),
`LogLogSys.from_callback(f, 4, 4)` (cell 20),
`LogLogSys.from_callback(f2, 3, 5)` (cell 26), and
`SymbolicSys.from_callback(vdp1, 2, 1)` (van der Pol notebook). -/
def fromCallbackDecls : List (String × ℕ × ℕ) :=
  [("f", 4, 4), ("f", 4, 4), ("f2", 3, 5), ("vdp1", 2, 1)]

/-- The result of an `integrate` call: output grid, output state
trajectory, and the diagnostics mapping (modelled by its keys). -/
structure ResultBundle where
  xout : List ℚ
  yout : List (List ℚ)
  info : List String
deriving DecidableEq, Repr

/-- Modelled from the spec: the external library's `integrate` routine is
not part of this repository; the spec says a call returns "output grid,
trajectory, and diagnostics".  Only the shape of the result is modelled:
the grid is echoed where declared, and the diagnostics mapping carries the
internal arrays the notebooks later pop. -/
def modelIntegrate (c : IntegrateCall) : ResultBundle :=
  { xout :=
      match c.grid with
      | .pts l => l
      | .scalar x => [x]
      | .runtime => []
  , yout := []
  , info := ["internal_xout", "internal_yout"] }

/-- An `integrate` call supplies the full argument set the spec describes:
initial conditions, parameters, an integrator, and both tolerances. -/
def suppliesFull (c : IntegrateCall) : Bool :=
  c.y0.isSome && c.params.isSome && c.integrator.isSome &&
  c.atol.isSome && c.rtol.isSome

/-- A grid argument that is an ordered sequence of at least two sample
points (what the spec describes). -/
def orderedGrid (g : GridArg) : Prop :=
  ∃ l, g = .pts l ∧ 2 ≤ l.length ∧ l.Sorted (· < ·)

lemma linspace_length (a b : ℚ) (n : ℕ) : (linspace a b n).length = n := by
  unfold linspace
  rw [List.length_map, List.length_range]

lemma linspace_sorted (a b : ℚ) (n : ℕ) (hab : a < b) (hn : 2 ≤ n) :
    (linspace a b n).Sorted (· < ·) := by
  have hba : (0 : ℚ) < b - a := by linarith
  have hn1 : (0 : ℚ) < (n : ℚ) - 1 := by
    have : (2 : ℚ) ≤ (n : ℚ) := by exact_mod_cast hn
    linarith
  unfold linspace List.Sorted
  refine List.Pairwise.map _ ?_ (List.pairwise_lt_range n)
  intro i j hij
  have hij' : (i : ℚ) < (j : ℚ) := by exact_mod_cast hij
  have := (div_lt_div_iff_of_pos_right hn1).mpr ((mul_lt_mul_left hba).mpr hij')
  linarith

lemma orderedGrid_linspace (a b : ℚ) (n : ℕ) (hab : a < b) (hn : 2 ≤ n) :
    orderedGrid (.pts (linspace a b n)) :=
  ⟨linspace a b n, rfl, by rw [linspace_length]; exact hn,
    linspace_sorted a b n hab hn⟩

lemma orderedGrid_pair (a b : ℚ) (hab : a < b) :
    orderedGrid (.pts [a, b]) :=
  ⟨[a, b], rfl, by simp, by simp [List.Sorted, hab]⟩

/-! ### Claim theorems -/

/-- C8: for every independent-variable value, every state with at least 4
components and every rate vector with at least 4 components, the four
components returned by `f(t, x, k)` sum to `-k[3]*x[3]`; with the
notebook's rate vector `k = [7, 3, 2, 0]` the sum of the derivatives is
exactly zero (the decay chain conserves the total amount). -/
theorem C8_mass_conservation :
    (∀ (t : ℚ) (x k : List ℚ), 4 ≤ x.length → 4 ≤ k.length →
      (f t x k).sum = -(k.getD 3 0 * x.getD 3 0))
    ∧ (∀ (t : ℚ) (x : List ℚ), 4 ≤ x.length → (f t x kDecay).sum = 0) := by
  constructor
  · intro t x k _ _
    simp [f]
    ring
  · intro t x _
    simp [f, kDecay]

theorem C8_witness :
    (4 ≤ y0Decay.length ∧ 4 ≤ kDecay.length) ∧
      (f 0 y0Decay kDecay).sum = -(kDecay.getD 3 0 * y0Decay.getD 3 0) :=
  ⟨⟨by norm_num [y0Decay], by norm_num [kDecay]⟩,
    C8_mass_conservation.1 0 y0Decay kDecay (by norm_num [y0Decay])
      (by norm_num [kDecay])⟩

/-- C10: the callbacks `f` and `vdp1` are autonomous — their value is the
same for any two values of the independent variable — while `f2` builds a
different expression for different independent-variable symbols (it is the
only callback depending on the independent variable). -/
theorem C10_autonomy :
    (∀ (t1 t2 : ℚ) (x k : List ℚ), f t1 x k = f t2 x k)
    ∧ (∀ (x1 x2 : ℚ) (y p : List ℚ), vdp1 x1 y p = vdp1 x2 y p)
    ∧ f2 (.sym "t") [.sym "x0"] [.sym "p0", .sym "p1", .sym "p2"] ≠
        f2 (.sym "u") [.sym "x0"] [.sym "p0", .sym "p1", .sym "p2"] :=
  ⟨fun _ _ _ _ => rfl, fun _ _ _ _ => rfl, by decide⟩

theorem C10_witness : f 0 y0Decay kDecay = f 1 y0Decay kDecay :=
  C10_autonomy.1 0 1 y0Decay kDecay

/-- C3: every right-hand-side callback returns a sequence whose length
equals the number of dependent variables declared at the corresponding
`from_callback` construction site: 4 for `f`, 2 for `vdp1`, and 3 for `f2`
(whose result has one entry per state component). -/
theorem C3_rhs_lengths :
    (∀ d ∈ fromCallbackDecls,
      (d.1 = "f" → d.2.1 = 4) ∧ (d.1 = "vdp1" → d.2.1 = 2) ∧
      (d.1 = "f2" → d.2.1 = 3))
    ∧ (∀ (t : ℚ) (x k : List ℚ), (f t x k).length = 4)
    ∧ (∀ (x : ℚ) (y p : List ℚ), (vdp1 x y p).length = 2)
    ∧ (∀ (t : Expr) (x p : List Expr), x.length = 3 → (f2 t x p).length = 3) := by
  refine ⟨by decide, fun _ _ _ => rfl, fun _ _ _ => rfl, ?_⟩
  intro t x p h
  simp [f2, h]

theorem C3_witness :
    (([Expr.sym "x0", Expr.sym "x1", Expr.sym "x2"] : List Expr).length = 3) ∧
      (f2 (.sym "t") [.sym "x0", .sym "x1", .sym "x2"]
        [.sym "p0", .sym "p1", .sym "p2", .sym "p3", .sym "p4"]).length = 3 :=
  ⟨rfl, C3_rhs_lengths.2.2.2 (.sym "t") _ _ rfl⟩

/-- C4: in `solve_and_plot`, the reference high-accuracy integration and
the pointwise error computation `yplot - yref` are performed if and only if
the resolved `interpolate` flag is true, and a `None` `interpolate`
defaults to true exactly when `nderiv > 0`. -/
theorem C4_interpolate_gating :
    ∀ (interp : Option Bool) (nderiv : ℕ),
      ((Ev.integrate "odesys2" true ∈ solveAndPlotEvents interp nderiv) ↔
        resolveInterpolate interp nderiv = true)
      ∧ ((Ev.errDiff ∈ solveAndPlotEvents interp nderiv) ↔
        resolveInterpolate interp nderiv = true)
      ∧ (∀ b, resolveInterpolate (some b) nderiv = b)
      ∧ (resolveInterpolate none nderiv = decide (0 < nderiv)) := by
  intro interp nderiv
  refine ⟨?_, ?_, fun _ => rfl, rfl⟩ <;>
    cases h : resolveInterpolate interp nderiv <;>
      simp [solveAndPlotEvents, h]

theorem C4_witness :
    resolveInterpolate (some true) 0 = true ∧
      Ev.integrate "odesys2" true ∈ solveAndPlotEvents (some true) 0 :=
  ⟨rfl, ((C4_interpolate_gating (some true) 0).1).mpr rfl⟩

/-- C7: in each notebook trace, every system construction from a callback
is preceded by that callback's definition, every integration on a system is
preceded by a construction of that system, and every plot of a result is
preceded by the integration that produced it. -/
theorem C7_ordering :
    evOrdered transformationsTrace = true ∧ evOrdered vdpTrace = true := by
  constructor <;> decide

/-- C1, counterexample: the first `integrate` call of
`transformations.ipynb` (cell 6) supplies initial conditions and
parameters but neither an integrator name nor tolerances, so not every
integration request supplies the full argument set the claim states. -/
theorem C1_counterexample :
    callTrans1 ∈ allIntegrateCalls ∧ suppliesFull callTrans1 = false ∧
      ¬ (∀ c ∈ allIntegrateCalls, suppliesFull c = true) := by
  refine ⟨List.mem_cons_self _ _, rfl, fun h => ?_⟩
  have := h callTrans1 (List.mem_cons_self _ _)
  simp [suppliesFull, callTrans1] at this

/-- C1, amended: every integration request made by the notebooks supplies
initial conditions and parameters and receives back a bundle of output
grid, trajectory and diagnostics; an integrator name and tolerances are
supplied at some call sites (e.g. cell 16) but not at all of them (not in
cell 6). -/
theorem C1_amended :
    (∀ c ∈ allIntegrateCalls, c.y0.isSome = true ∧ c.params.isSome = true)
    ∧ (∀ c, ∃ grid traj diag, modelIntegrate c = ⟨grid, traj, diag⟩)
    ∧ (∃ c ∈ allIntegrateCalls, suppliesFull c = true)
    ∧ (∃ c ∈ allIntegrateCalls, c.integrator = none ∧ c.atol = none) := by
  refine ⟨by decide, fun c => ⟨_, _, _, rfl⟩, ⟨callTrans3, ?_, rfl⟩,
    ⟨callTrans1, List.mem_cons_self _ _, rfl, rfl⟩⟩
  simp [allIntegrateCalls]

theorem C1_witness :
    callTrans1.y0.isSome = true ∧ callTrans1.params.isSome = true :=
  C1_amended.1 callTrans1 (List.mem_cons_self _ _)

/-- C2, counterexample: the cell-16 call passes the scalar `tend` as the
grid argument, which is not an ordered sequence of at least two sample
points. -/
theorem C2_counterexample :
    callTrans3 ∈ allIntegrateCalls ∧ callTrans3.grid = .scalar 1 ∧
      ¬ orderedGrid callTrans3.grid ∧
      ¬ (∀ c ∈ allIntegrateCalls, orderedGrid c.grid) := by
  have hmem : callTrans3 ∈ allIntegrateCalls := by simp [allIntegrateCalls]
  have hng : ¬ orderedGrid callTrans3.grid := by
    rintro ⟨l, hl, -, -⟩
    simp [callTrans3] at hl
  exact ⟨hmem, rfl, hng, fun h => hng (h callTrans3 hmem)⟩

/-- C2, amended: in every integration call made by the notebooks, the grid
argument is an ordered sequence of at least two sample points (possibly
just the two endpoints), except the cell-16 call that passes the single
scalar endpoint `tend` and the reference calls of `solve_and_plot` whose
grid is the run-time plot grid of a previous result. -/
theorem C2_amended :
    ∀ c ∈ allIntegrateCalls,
      orderedGrid c.grid ∨ c.grid = .scalar 1 ∨ c.grid = .runtime := by
  intro c hc
  fin_cases hc <;>
    first
      | exact Or.inr (Or.inl rfl)
      | exact Or.inr (Or.inr rfl)
      | exact Or.inl (orderedGrid_linspace 0 1 50 (by norm_num) (by norm_num))
      | exact Or.inl (orderedGrid_linspace 0 25 30 (by norm_num) (by norm_num))
      | exact Or.inl (orderedGrid_pair (1/10^12) 1 (by norm_num))
      | exact Or.inl (orderedGrid_pair 0 25 (by norm_num))

theorem C2_witness :
    orderedGrid callTrans4.grid ∨ callTrans4.grid = .scalar 1 ∨
      callTrans4.grid = .runtime :=
  C2_amended callTrans4 (by simp [allIntegrateCalls])

/-- C5, counterexample: `rmsd` performs arithmetic of its own (elementwise
subtraction, squaring, and a square root) and calls numpy, so it is not
true that every notebook function only composes calls into the ODE package
and the plotting library with no computation of its own. -/
theorem C5_counterexample :
    fnRmsd ∈ notebookFunctions ∧ Op.arith "diff**2" ∈ fnRmsd.body ∧
      ¬ (∀ fn ∈ notebookFunctions, ∀ op ∈ fn.body, isOdeOrPlotCall op = true) := by
  refine ⟨by decide, by decide, fun h => ?_⟩
  have := h fnRmsd (by decide) (Op.arith "diff**2") (by decide)
  simp [isOdeOrPlotCall] at this

/-- C5, amended: every function defined in the notebooks only composes
calls into third-party libraries (the ODE package, the plotting library,
numpy, sympy, Python builtins), calls to other notebook functions, and
elementwise arithmetic of its own; no solver-level algorithm occurs in any
body. -/
theorem C5_amended :
    ∀ fn ∈ notebookFunctions, ∀ op ∈ fn.body, isGlueOp op = true := by
  decide

theorem C5_witness : isGlueOp (Op.extCall "numpy" "array") = true :=
  C5_amended fnRmsd (by decide) (Op.extCall "numpy" "array") (by decide)

lemma runBody_propagates (oracle : Op → Except String Unit) (pre : List Op)
    (op : Op) (post : List Op) (e : String)
    (hpre : ∀ o ∈ pre, oracle o = .ok ())
    (hop : oracle op = .error e) :
    runBody oracle (pre ++ op :: post) = .error e := by
  induction pre with
  | nil => simp [runBody, hop]
  | cons a r ih =>
    have ha : oracle a = .ok () := hpre a (List.mem_cons_self _ _)
    simp only [List.cons_append, runBody, ha]
    exact ih (fun o ho => hpre o (List.mem_cons_of_mem _ ho))

/-- C6: none of the six notebook functions contains an error handler, and
for each of them, when a callee operation raises an error (all operations
before it succeeding), the function's result is exactly that error,
propagated unchanged to the caller. -/
theorem C6_no_error_handling :
    ∀ fn ∈ notebookFunctions,
      fn.hasHandler = false ∧
      ∀ (oracle : Op → Except String Unit) (pre : List Op) (op : Op)
        (post : List Op) (e : String),
        fn.body = pre ++ op :: post →
        (∀ o ∈ pre, oracle o = .ok ()) →
        oracle op = .error e →
        runFn oracle fn = .error e := by
  intro fn hfn
  have hh : fn.hasHandler = false := by fin_cases hfn <;> rfl
  refine ⟨hh, ?_⟩
  intro oracle pre op post e hbody hpre hop
  simp only [runFn, hh]
  rw [hbody]
  exact runBody_propagates oracle pre op post e hpre hop

theorem C6_witness :
    runFn (fun _ => Except.error "ValueError") fnRmsd =
      Except.error "ValueError" :=
  (C6_no_error_handling fnRmsd (by decide)).2
    (fun _ => Except.error "ValueError") [] (.arith "ref[4-len(x):]")
    [ .extCall "numpy" "array", .arith "np.array(...) - x", .arith "diff**2"
    , .extCall "numpy" "sum", .arith "np.sum(...)**0.5" ]
    "ValueError" rfl (by simp) rfl

lemma dictPop_ok_of_mem (d : List String) (k : String) (h : k ∈ d) :
    dictPop d k = .ok (d.filter (· != k)) := by
  unfold dictPop
  rw [if_pos h]

lemma dictPop_err_of_not_mem (d : List String) (k : String) (h : k ∉ d) :
    dictPop d k = .error "KeyError" := by
  unfold dictPop
  rw [if_neg h]

lemma dictPop_ok_spec (d d2 : List String) (k : String)
    (h : dictPop d k = .ok d2) : k ∉ d2 ∧ ∀ x ∈ d2, x ∈ d := by
  unfold dictPop at h
  split at h
  · cases h
    constructor
    · intro hk
      have := List.mem_filter.1 hk
      simp at this
    · intro x hx
      exact (List.mem_filter.1 hx).1
  · exact absurd h (by simp)

lemma iapInfo_ok_spec (info d : List String) (h : iapInfo info = .ok d) :
    "internal_xout" ∉ d ∧ "internal_yout" ∉ d := by
  unfold iapInfo at h
  split at h
  · exact absurd h (by simp)
  · rename_i i1 h1
    split at h
    · exact absurd h (by simp)
    · rename_i i2 h2
      cases h
      obtain ⟨hy, hsub⟩ := dictPop_ok_spec i1 d "internal_yout" h2
      obtain ⟨hx, -⟩ := dictPop_ok_spec info i1 "internal_xout" h1
      exact ⟨fun hmem => hx (hsub _ hmem), hy⟩

lemma iapInfo_err_of_absent (info : List String)
    (h : "internal_xout" ∉ info ∨ "internal_yout" ∉ info) :
    iapInfo info = .error "KeyError" := by
  by_cases hx : "internal_xout" ∈ info
  · have hy : "internal_yout" ∉ info := h.resolve_left (not_not_intro hx)
    have hy1 : "internal_yout" ∉ info.filter (· != "internal_xout") :=
      fun hmem => hy (List.mem_filter.1 hmem).1
    simp [iapInfo, dictPop_ok_of_mem info _ hx,
      dictPop_err_of_not_mem _ _ hy1]
  · simp [iapInfo, dictPop_err_of_not_mem info _ hx]

lemma sapInfo_eq_iapInfo (info : List String) :
    sapInfo info = iapInfo (dictPopD info "root_indices") := rfl

lemma sapInfo_ok_of_mem (info : List String)
    (hx : "internal_xout" ∈ info) (hy : "internal_yout" ∈ info) :
    ∃ d, sapInfo info = .ok d := by
  have hx1 : "internal_xout" ∈ dictPopD info "root_indices" :=
    List.mem_filter.2 ⟨hx, by decide⟩
  have hy1 : "internal_yout" ∈ dictPopD info "root_indices" :=
    List.mem_filter.2 ⟨hy, by decide⟩
  have hy2 : "internal_yout" ∈
      (dictPopD info "root_indices").filter (· != "internal_xout") :=
    List.mem_filter.2 ⟨hy1, by decide⟩
  refine ⟨((dictPopD info "root_indices").filter
    (· != "internal_xout")).filter (· != "internal_yout"), ?_⟩
  rw [sapInfo_eq_iapInfo]
  simp [iapInfo, dictPop_ok_of_mem _ _ hx1, dictPop_ok_of_mem _ _ hy2]

/-- C9: both post-processing routines remove `internal_xout` and
`internal_yout` from the diagnostics mapping before returning it, so a
returned mapping never contains those keys; `integrate_and_plot`'s pops
have no default and raise `KeyError` when either key is absent, while
`solve_and_plot`'s removal of `root_indices` uses a default and never
raises (its success does not depend on that key being present). -/
theorem C9_info_pops :
    ∀ info : List String,
      (∀ d, iapInfo info = .ok d →
        "internal_xout" ∉ d ∧ "internal_yout" ∉ d)
      ∧ (∀ d, sapInfo info = .ok d →
        "internal_xout" ∉ d ∧ "internal_yout" ∉ d)
      ∧ (("internal_xout" ∉ info ∨ "internal_yout" ∉ info) →
        iapInfo info = .error "KeyError")
      ∧ ("internal_xout" ∈ info → "internal_yout" ∈ info →
        ∃ d, sapInfo info = .ok d) := by
  intro info
  refine ⟨fun d h => iapInfo_ok_spec info d h, fun d h => ?_,
    iapInfo_err_of_absent info, sapInfo_ok_of_mem info⟩
  rw [sapInfo_eq_iapInfo] at h
  exact iapInfo_ok_spec _ d h

theorem C9_witness :
    ("internal_xout" ∉ (["n_steps"] : List String) ∧
      "internal_yout" ∉ (["n_steps"] : List String)) ∧
    iapInfo ["internal_xout", "internal_yout", "n_steps"] = .ok ["n_steps"] :=
  ⟨(C9_info_pops ["internal_xout", "internal_yout", "n_steps"]).1
    ["n_steps"] rfl, rfl⟩
